import Mathlib

/-!
Verification of the NetApp Data ONTAP cluster-mode block-storage library
(`cinder/volume/drivers/netapp/dataontap/block_cmode.py`).

The driver object's mutable fields that the claims concern — the SSC catalog
cache (`ssc_vols`), the stale-pool invalidation set (`stale_vols`), the LUN
table (`lun_table`), the vserver name and the configured size multiplier —
are embedded as an explicit `DriverState` record.  Methods become functions
threading that state; backend (ZAPI client) calls are abstracted as
parameters (a result value or a lookup function), since the client is an
external collaborator.  Python exceptions become `Except` results.
Numeric capacity arithmetic is embedded over `ℚ` (exact rationals).
-/

namespace NetAppCmode

/-- Modelled from the spec: `ssc_cmode.NetAppVolume(name, vserver)` (the class
lives in `ssc_cmode.py`, which is outside the provided sources).  The spec's
pool identity is the pool name plus the owning vserver context, with value
equality. -/
structure NetAppVolume where
  name : String
  vserver : String
deriving DecidableEq, Repr

/-- LUN metadata dictionary as built by `_create_lun_meta`: the keys
`Vserver`, `Volume`, `Qtree`, `Path`, `OsType`, `SpaceReserved`. -/
structure LunMeta where
  vserver : String
  volume : String
  qtree : String
  path : String
  osType : String
  spaceReserved : String
deriving DecidableEq, Repr

/-- Modelled from the spec: `block_base.NetAppLun` (the base library is
outside the provided sources).  A LUN record: composite handle, name, size
and its metadata snapshot. -/
structure NetAppLun where
  handle : String
  name : String
  size : String
  metadata : LunMeta
deriving DecidableEq, Repr

/-- A raw LUN record returned by the backend client's `get_lun_by_args`
(an NaElement in the source); `get_child_content` accesses become fields. -/
structure RawLun where
  vserver : String
  volume : String
  qtree : String
  path : String
  multiprotocolType : String
  isSpaceReservationEnabled : String
  size : String
deriving DecidableEq, Repr

/-- One SSC catalog entry (`ssc_cmode.NetAppVolume` with its `id`, `space`
and `aggr` dictionaries populated, as read by `_get_pool_stats`):
`vol.id['name']`, `vol.space['size_total_bytes']`,
`vol.space['size_avl_bytes']`, `vol.aggr['raid_type']`,
`vol.aggr['disk_type']`. -/
structure SSCVol where
  idName : String
  sizeTotalBytes : ℚ
  sizeAvlBytes : ℚ
  raidType : String
  diskType : String
deriving DecidableEq, Repr

/-- The SSC catalog dictionary `self.ssc_vols` with its keys
`all`, `mirrored`, `dedup`, `compression`, `thin`. -/
structure SSCVols where
  all : List SSCVol
  mirrored : List SSCVol
  dedup : List SSCVol
  compression : List SSCVol
  thin : List SSCVol
deriving DecidableEq, Repr

/-- Python exceptions that the embedded operations can surface. -/
inductive DriverErr where
  | backendError (data : String)
  | volumeBackendAPIException (data : String)
  | typeError
deriving DecidableEq, Repr

/-- The driver state: the mutable fields of `NetAppBlockStorageCmodeLibrary`
relevant to the claims (`self.vserver`,
`self.configuration.netapp_size_multiplier`, `self.ssc_vols`,
`self.stale_vols`, `self.lun_table`). -/
structure DriverState where
  vserver : String
  sizeMultiplier : ℚ
  ssc_vols : Option SSCVols
  stale_vols : Finset NetAppVolume
  lun_table : List (String × NetAppLun)
deriving DecidableEq

/-- `self.lun_table.get(name)`: dictionary lookup. -/
def tableGet (t : List (String × NetAppLun)) (nm : String) : Option NetAppLun :=
  match t with
  | [] => none
  | (k, v) :: rest => if k = nm then some v else tableGet rest nm

/-- Modelled from the spec: `_add_lun_to_table` of the base library
(`self.lun_table[lun.name] = lun`): dictionary store keyed by LUN name. -/
def tableSet (t : List (String × NetAppLun)) (l : NetAppLun) :
    List (String × NetAppLun) :=
  (l.name, l) :: t.filter (fun p => p.1 ≠ l.name)

/-- `_update_stale_vols(volume=None, reset=False)`: if a volume is given, add
it to `stale_vols`; if `reset`, deep-copy the set, clear it, and return the
copy (otherwise return `None`). -/
def update_stale_vols (s : DriverState) (volume : Option NetAppVolume)
    (reset : Bool) : Option (Finset NetAppVolume) × DriverState :=
  let s1 := match volume with
    | some v => { s with stale_vols := insert v s.stale_vols }
    | none => s
  if reset then (some s1.stale_vols, { s1 with stale_vols := ∅ })
  else (none, s1)

/-- `_create_lun`: call the backend client's `create_lun` (its outcome is the
`backendCreate` parameter; an exception propagates unchanged) and, on
success, mark `NetAppVolume(volume_name, self.vserver)` stale.  The
`lun_name`, `size`, `metadata` and `qos_policy_group` arguments flow only to
the abstracted backend call. -/
def create_lun (s : DriverState) (backendCreate : Except DriverErr Unit)
    (volume_name lun_name : String) (size : ℚ) (metadata : LunMeta)
    (qos_policy_group : Option String) : Except DriverErr Unit × DriverState :=
  match backendCreate with
  | Except.error e => (Except.error e, s)
  | Except.ok _ =>
      (Except.ok (),
        (update_stale_vols s (some ⟨volume_name, s.vserver⟩) false).2)

/-- `_create_lun_meta(lun)`: project a raw backend LUN record into the
metadata dictionary. -/
def create_lun_meta (lun : RawLun) : LunMeta :=
  { vserver := lun.vserver, volume := lun.volume, qtree := lun.qtree,
    path := lun.path, osType := lun.multiprotocolType,
    spaceReserved := lun.isSpaceReservationEnabled }

/-- The arguments the source passes to the backend client's `clone_lun`
primitive. -/
structure CloneCall where
  volume : String
  name : String
  new_name : String
  space_reserved : String
  src_block : Nat
  dest_block : Nat
  block_count : Nat
deriving DecidableEq, Repr

/-- `_clone_lun(name, new_name, space_reserved, src_block, dest_block,
block_count)`: read the source LUN's metadata from the table (a missing
entry makes the Python `metadata['Volume']` access raise, modelled as
`typeError`); call the backend clone primitive with literal zero block-range
arguments (the recorded `CloneCall`; its outcome is `cloneResult`); look up
the new LUN at `/vol/<volume>/<new_name>` via the abstracted
`get_lun_by_args` function `lk`; an empty result raises
`VolumeBackendAPIException`; otherwise build the clone's metadata, add the
new `NetAppLun` to the table and mark the source pool stale. -/
def clone_lun (s : DriverState) (lk : String → String → List RawLun)
    (cloneResult : Except DriverErr Unit) (name new_name : String)
    (space_reserved : String) (src_block dest_block block_count : Nat) :
    Option CloneCall × Except DriverErr Unit × DriverState :=
  match tableGet s.lun_table name with
  | none => (none, Except.error DriverErr.typeError, s)
  | some srcLun =>
    let volume := srcLun.metadata.volume
    let call : CloneCall :=
      { volume := volume, name := name, new_name := new_name,
        space_reserved := space_reserved,
        src_block := 0, dest_block := 0, block_count := 0 }
    match cloneResult with
    | Except.error e => (some call, Except.error e, s)
    | Except.ok _ =>
      match lk s.vserver ("/vol/" ++ volume ++ "/" ++ new_name) with
      | [] =>
          (some call,
           Except.error (DriverErr.volumeBackendAPIException
             ("No cloned LUN named " ++ new_name ++ " found on the filer")),
           s)
      | l0 :: _ =>
        let cloneMeta := create_lun_meta l0
        let newLun : NetAppLun :=
          { handle := cloneMeta.vserver ++ ":" ++ cloneMeta.path,
            name := new_name, size := l0.size, metadata := cloneMeta }
        let s1 := { s with lun_table := tableSet s.lun_table newLun }
        (some call, Except.ok (),
         (update_stale_vols s1 (some ⟨volume, s.vserver⟩) false).2)

/-- `_get_fc_target_wwpns(include_partner=True)`: returns the backend
client's `get_fc_target_wwpns()` result (abstracted as `backendWwpns`). -/
def get_fc_target_wwpns (backendWwpns : List String)
    (include_partner : Bool) : List String :=
  backendWwpns

/-- `delete_volume(volume)`: read the LUN's recorded owning pool from the
table (modelled from the spec for `get_metadata_property('Volume')` of the
base library's LUN: it returns the metadata's owning-pool entry), delegate
deletion to the base class (the abstract state transformer `baseDelete`),
then — only when the recorded pool name is truthy (non-empty) — mark
`NetAppVolume(netapp_vol, self.vserver)` stale. -/
def delete_volume (s : DriverState) (baseDelete : DriverState → DriverState)
    (volumeName : String) : DriverState :=
  let netappVol : Option String :=
    (tableGet s.lun_table volumeName).map (fun l => l.metadata.volume)
  let s1 := baseDelete s
  match netappVol with
  | some v =>
      if v = "" then s1
      else (update_stale_vols s1 (some ⟨v, s1.vserver⟩) false).2
  | none => s1

/-- `units.Gi` (oslo): one gibibyte, `2^30` bytes. -/
def Gi : ℚ := 1073741824

/-- Modelled from the spec: `na_utils.round_down(value, '0.01')` (the utils
module is outside the provided sources): round down — truncate, never round
to nearest — to two decimal places. -/
def round_down (q : ℚ) : ℚ := (⌊q * 100⌋ : ℚ) / 100

/-- `six.text_type(b).lower()` applied to a Python bool. -/
def boolStr (b : Bool) : String := if b then "true" else "false"

/-- One entry of the list returned by `_get_pool_stats`. -/
structure PoolStats where
  pool_name : String
  QoS_support : Bool
  reserved_percentage : Nat
  total_capacity_gb : ℚ
  free_capacity_gb : ℚ
  netapp_raid_type : String
  netapp_disk_type : String
  netapp_mirrored : String
  netapp_unmirrored : String
  netapp_dedup : String
  netapp_nodedup : String
  netapp_compression : String
  netapp_nocompression : String
  netapp_thin_provisioned : String
  netapp_thick_provisioned : String
deriving DecidableEq, Repr

/-- The loop body of `_get_pool_stats` for one catalog entry `vol`: sizes
divided by the configured multiplier and by `Gi` then rounded down to two
decimals; capability tags from membership in the classification subsets,
each paired with its negation. -/
def poolStatsOf (mult : ℚ) (vols : SSCVols) (vol : SSCVol) : PoolStats :=
  let total := vol.sizeTotalBytes / mult / Gi
  let free := vol.sizeAvlBytes / mult / Gi
  let mirrored := decide (vol ∈ vols.mirrored)
  let dedup := decide (vol ∈ vols.dedup)
  let compression := decide (vol ∈ vols.compression)
  let thin := decide (vol ∈ vols.thin)
  { pool_name := vol.idName
    QoS_support := false
    reserved_percentage := 0
    total_capacity_gb := round_down total
    free_capacity_gb := round_down free
    netapp_raid_type := vol.raidType
    netapp_disk_type := vol.diskType
    netapp_mirrored := boolStr mirrored
    netapp_unmirrored := boolStr (! mirrored)
    netapp_dedup := boolStr dedup
    netapp_nodedup := boolStr (! dedup)
    netapp_compression := boolStr compression
    netapp_nocompression := boolStr (! compression)
    netapp_thin_provisioned := boolStr thin
    netapp_thick_provisioned := boolStr (! thin) }

/-- `_get_pool_stats()`: an uninitialized catalog (`if not self.ssc_vols`)
yields the empty list; otherwise one entry per element of
`self.ssc_vols['all']`.  The method only reads driver state, so the embedding
threads the state through unchanged alongside the return value. -/
def get_pool_stats (s : DriverState) : List PoolStats × DriverState :=
  match s.ssc_vols with
  | none => ([], s)
  | some vols => (vols.all.map (poolStatsOf s.sizeMultiplier vols), s)

/-! Concrete fixtures used by witness and counterexample theorems. -/

/-- Witness state for the stale-set claims: one pool already marked. -/
def sW1 : DriverState :=
  { vserver := "vs1", sizeMultiplier := 1, ssc_vols := none,
    stale_vols := {⟨"P1", "vs1"⟩}, lun_table := [] }

/-- A tracked LUN living in pool `P1`. -/
def lm0 : LunMeta :=
  { vserver := "vs1", volume := "P1", qtree := "q1", path := "/vol/P1/L1",
    osType := "linux", spaceReserved := "true" }

/-- The tracked LUN record for `L1`. -/
def lun0 : NetAppLun :=
  { handle := "vs1:/vol/P1/L1", name := "L1", size := "100", metadata := lm0 }

/-- A tracked LUN whose recorded owning-pool name is the empty string. -/
def lunE : NetAppLun :=
  { handle := "vs1:/vol//LE", name := "LE", size := "100",
    metadata := { lm0 with volume := "" } }

/-- A catalog entry for pool `P1`: 10 GiB total, 5 GiB available. -/
def sv0 : SSCVol :=
  { idName := "P1", sizeTotalBytes := 10737418240,
    sizeAvlBytes := 5368709120, raidType := "raid_dp", diskType := "SSD" }

/-- A catalog where `P1` is mirrored and compressed, not dedup, not thin. -/
def vols0 : SSCVols :=
  { all := [sv0], mirrored := [sv0], dedup := [], compression := [sv0],
    thin := [] }

/-- Witness state with a populated catalog and a tracked LUN `L1`. -/
def s0 : DriverState :=
  { vserver := "vs1", sizeMultiplier := 1, ssc_vols := some vols0,
    stale_vols := ∅, lun_table := [("L1", lun0)] }

/-- State whose tracked LUN `LE` records an empty owning-pool name. -/
def sE : DriverState :=
  { vserver := "vs1", sizeMultiplier := 1, ssc_vols := none,
    stale_vols := ∅, lun_table := [("LE", lunE)] }

/-- State with a populated catalog whose `all` list is empty. -/
def sEmptyAll : DriverState :=
  { vserver := "vs1", sizeMultiplier := 1,
    ssc_vols := some { all := [], mirrored := [], dedup := [],
                       compression := [], thin := [] },
    stale_vols := ∅, lun_table := [] }

end NetAppCmode

namespace NetAppCmode

/-- C1: marking a pool with `reset=True` returns a copy of the prior stale
set united with the pool and leaves the stale set empty; with `reset=False`
it returns nothing and leaves the stale set equal to the union; re-marking a
pool already present leaves the set unchanged (idempotence). -/
theorem update_stale_vols_spec (s : DriverState) (v : NetAppVolume) :
    ((update_stale_vols s (some v) true).1 = some (s.stale_vols ∪ {v})
      ∧ ((update_stale_vols s (some v) true).2).stale_vols = ∅)
    ∧ ((update_stale_vols s (some v) false).1 = none
      ∧ ((update_stale_vols s (some v) false).2).stale_vols
          = s.stale_vols ∪ {v})
    ∧ (v ∈ s.stale_vols → insert v s.stale_vols = s.stale_vols) := by
  have hins : insert v s.stale_vols = s.stale_vols ∪ {v} := by
    rw [Finset.insert_eq, Finset.union_comm]
  refine ⟨⟨?_, rfl⟩, ⟨rfl, ?_⟩, fun h => Finset.insert_eq_self.mpr h⟩
  · simp [update_stale_vols, hins]
  · simp [update_stale_vols, hins]

/-- Witness instantiating `update_stale_vols_spec` at a pool already in the
stale set, so the idempotence hypothesis is discharged concretely. -/
theorem update_stale_vols_spec_witness :
    ((update_stale_vols sW1 (some ⟨"P1", "vs1"⟩) true).1
        = some (sW1.stale_vols ∪ {⟨"P1", "vs1"⟩})
      ∧ ((update_stale_vols sW1 (some ⟨"P1", "vs1"⟩) true).2).stale_vols = ∅)
    ∧ ((update_stale_vols sW1 (some ⟨"P1", "vs1"⟩) false).1 = none
      ∧ ((update_stale_vols sW1 (some ⟨"P1", "vs1"⟩) false).2).stale_vols
          = sW1.stale_vols ∪ {⟨"P1", "vs1"⟩})
    ∧ insert (⟨"P1", "vs1"⟩ : NetAppVolume) sW1.stale_vols
        = sW1.stale_vols := by
  have h := update_stale_vols_spec sW1 ⟨"P1", "vs1"⟩
  exact ⟨h.1, h.2.1, h.2.2 (by decide)⟩

/-- C2: when the source LUN is tracked, the backend clone call succeeds, but
the subsequent lookup of the new LUN's path returns an empty list,
`_clone_lun` raises `VolumeBackendAPIException` naming the expected new LUN
name, and the driver state is returned unchanged: no LUN-table registration
and no stale-pool marking. -/
theorem clone_lun_not_found (s : DriverState)
    (lk : String → String → List RawLun) (name new_name sr : String)
    (a b c : Nat) (srcLun : NetAppLun)
    (hmem : tableGet s.lun_table name = some srcLun)
    (hempty :
      lk s.vserver ("/vol/" ++ srcLun.metadata.volume ++ "/" ++ new_name)
        = []) :
    clone_lun s lk (Except.ok ()) name new_name sr a b c
      = (some { volume := srcLun.metadata.volume, name := name,
                new_name := new_name, space_reserved := sr,
                src_block := 0, dest_block := 0, block_count := 0 },
         Except.error (DriverErr.volumeBackendAPIException
           ("No cloned LUN named " ++ new_name ++ " found on the filer")),
         s) := by
  simp only [clone_lun, hmem, hempty]

/-- Witness: a concrete state with `L1` tracked and a lookup that finds no
clone; `clone_lun_not_found` applies and every hypothesis is discharged. -/
theorem clone_lun_not_found_witness :
    clone_lun s0 (fun _ _ => []) (Except.ok ()) "L1" "L2" "true" 4 5 6
      = (some { volume := "P1", name := "L1", new_name := "L2",
                space_reserved := "true", src_block := 0, dest_block := 0,
                block_count := 0 },
         Except.error (DriverErr.volumeBackendAPIException
           "No cloned LUN named L2 found on the filer"),
         s0) := by
  have h := clone_lun_not_found s0 (fun _ _ => []) "L1" "L2" "true" 4 5 6
    lun0 (by decide) rfl
  simpa using h

/-- C7: `_create_lun` propagates a backend `create_lun` failure unchanged and
leaves the state (in particular the stale-pool set) untouched; on backend
success it marks `NetAppVolume(volume_name, vserver)` stale and returns
normally. -/
theorem create_lun_invalidation (s : DriverState) (e : DriverErr)
    (vn ln : String) (sz : ℚ) (md : LunMeta) (qos : Option String) :
    create_lun s (Except.error e) vn ln sz md qos = (Except.error e, s)
    ∧ (create_lun s (Except.ok ()) vn ln sz md qos).1 = Except.ok ()
    ∧ (create_lun s (Except.ok ()) vn ln sz md qos).2
        = { s with stale_vols := insert ⟨vn, s.vserver⟩ s.stale_vols } := by
  exact ⟨rfl, rfl, rfl⟩

/-- C8: whenever `_clone_lun` reaches the backend clone primitive, the call
it issues carries `src_block = 0`, `dest_block = 0` and `block_count = 0`,
regardless of the block-range arguments the caller supplied. -/
theorem clone_lun_block_range (s : DriverState)
    (lk : String → String → List RawLun) (r : Except DriverErr Unit)
    (name new_name sr : String) (a b c : Nat) :
    ∀ call,
      (clone_lun s lk r name new_name sr a b c).1 = some call →
        call.src_block = 0 ∧ call.dest_block = 0 ∧ call.block_count = 0 := by
  intro call hcall
  cases hg : tableGet s.lun_table name with
  | none => simp [clone_lun, hg] at hcall
  | some srcLun =>
    cases r with
    | error e =>
        simp only [clone_lun, hg, Option.some.injEq] at hcall
        subst hcall
        exact ⟨rfl, rfl, rfl⟩
    | ok u =>
      cases hl : lk s.vserver
          ("/vol/" ++ srcLun.metadata.volume ++ "/" ++ new_name) with
      | nil =>
          simp only [clone_lun, hg, hl, Option.some.injEq] at hcall
          subst hcall
          exact ⟨rfl, rfl, rfl⟩
      | cons l0 rest =>
          simp only [clone_lun, hg, hl, Option.some.injEq] at hcall
          subst hcall
          exact ⟨rfl, rfl, rfl⟩

/-- Witness: `clone_lun_block_range` applied at a concrete call with
non-zero block-range arguments 4, 5, 6 whose clone call is still issued with
zeros. -/
theorem clone_lun_block_range_witness :
    ({ volume := "P1", name := "L1", new_name := "L2",
       space_reserved := "true", src_block := 0, dest_block := 0,
       block_count := 0 } : CloneCall).src_block = 0
    ∧ ({ volume := "P1", name := "L1", new_name := "L2",
         space_reserved := "true", src_block := 0, dest_block := 0,
         block_count := 0 } : CloneCall).dest_block = 0
    ∧ ({ volume := "P1", name := "L1", new_name := "L2",
         space_reserved := "true", src_block := 0, dest_block := 0,
         block_count := 0 } : CloneCall).block_count = 0 := by
  exact clone_lun_block_range s0 (fun _ _ => []) (Except.ok ())
    "L1" "L2" "true" 4 5 6 _ (by decide)

/-- C9: `_get_fc_target_wwpns` ignores `include_partner`: any two calls
against the same backend result agree, and either equals exactly the backend
client's `get_fc_target_wwpns()` result. -/
theorem fc_target_wwpns_independent (w : List String) (p q : Bool) :
    get_fc_target_wwpns w p = get_fc_target_wwpns w q
    ∧ get_fc_target_wwpns w p = w := by
  exact ⟨rfl, rfl⟩

/-- C10: `_get_pool_stats` is a pure projection: it returns the driver state
unchanged — same catalog cache, same stale-pool set, same LUN table. -/
theorem get_pool_stats_frame (s : DriverState) :
    (get_pool_stats s).2 = s
    ∧ (get_pool_stats s).2.ssc_vols = s.ssc_vols
    ∧ (get_pool_stats s).2.stale_vols = s.stale_vols
    ∧ (get_pool_stats s).2.lun_table = s.lun_table := by
  cases h : s.ssc_vols with
  | none => simp [get_pool_stats, h]
  | some vols => simp [get_pool_stats, h]

/-- C5: an uninitialized (`None`) catalog and a populated catalog whose
`all` list is empty both make `_get_pool_stats` return the empty pool list
without error. -/
theorem get_pool_stats_cold (s t : DriverState) (vols : SSCVols)
    (hs : s.ssc_vols = none) (ht : t.ssc_vols = some vols)
    (hall : vols.all = []) :
    (get_pool_stats s).1 = [] ∧ (get_pool_stats t).1 = [] := by
  refine ⟨?_, ?_⟩
  · simp [get_pool_stats, hs]
  · simp [get_pool_stats, ht, hall]

/-- Witness: `get_pool_stats_cold` at a concrete uninitialized state and a
concrete state whose catalog lists no pools. -/
theorem get_pool_stats_cold_witness :
    (get_pool_stats sW1).1 = [] ∧ (get_pool_stats sEmptyAll).1 = [] := by
  exact get_pool_stats_cold sW1 sEmptyAll
    { all := [], mirrored := [], dedup := [], compression := [], thin := [] }
    rfl rfl rfl

/-- `boolStr` hits `"true"` exactly on `true`. -/
theorem boolStr_eq_true (b : Bool) : boolStr b = "true" ↔ b = true := by
  cases b <;> simp [boolStr]

/-- C3: the pool list is exactly the per-entry projection of the catalog's
`all` list, and in each entry every positive capability tag is `"true"` iff
the entry's catalog volume belongs to the corresponding classification
subset, while the paired negative tag is `"true"` iff the positive one is
not — the pairs are exact logical negations. -/
theorem pool_stats_tags (s : DriverState) (vols : SSCVols) (vol : SSCVol)
    (h : s.ssc_vols = some vols) :
    (get_pool_stats s).1 = vols.all.map (poolStatsOf s.sizeMultiplier vols)
    ∧ ((poolStatsOf s.sizeMultiplier vols vol).netapp_mirrored = "true"
        ↔ vol ∈ vols.mirrored)
    ∧ ((poolStatsOf s.sizeMultiplier vols vol).netapp_unmirrored = "true"
        ↔ ¬ (poolStatsOf s.sizeMultiplier vols vol).netapp_mirrored = "true")
    ∧ ((poolStatsOf s.sizeMultiplier vols vol).netapp_dedup = "true"
        ↔ vol ∈ vols.dedup)
    ∧ ((poolStatsOf s.sizeMultiplier vols vol).netapp_nodedup = "true"
        ↔ ¬ (poolStatsOf s.sizeMultiplier vols vol).netapp_dedup = "true")
    ∧ ((poolStatsOf s.sizeMultiplier vols vol).netapp_compression = "true"
        ↔ vol ∈ vols.compression)
    ∧ ((poolStatsOf s.sizeMultiplier vols vol).netapp_nocompression = "true"
        ↔ ¬ (poolStatsOf s.sizeMultiplier vols
              vol).netapp_compression = "true")
    ∧ ((poolStatsOf s.sizeMultiplier vols vol).netapp_thin_provisioned
          = "true" ↔ vol ∈ vols.thin)
    ∧ ((poolStatsOf s.sizeMultiplier vols vol).netapp_thick_provisioned
          = "true"
        ↔ ¬ (poolStatsOf s.sizeMultiplier vols
              vol).netapp_thin_provisioned = "true") := by
  refine ⟨by simp [get_pool_stats, h], ?_, ?_, ?_, ?_, ?_, ?_, ?_, ?_⟩ <;>
    by_cases h1 : vol ∈ vols.mirrored <;>
    by_cases h2 : vol ∈ vols.dedup <;>
    by_cases h3 : vol ∈ vols.compression <;>
    by_cases h4 : vol ∈ vols.thin <;>
    simp [poolStatsOf, boolStr, h1, h2, h3, h4]

/-- Witness: `pool_stats_tags` at a concrete catalog where `P1` is mirrored
and compressed but neither dedup nor thin. -/
theorem pool_stats_tags_witness :
    (get_pool_stats s0).1 = vols0.all.map (poolStatsOf s0.sizeMultiplier vols0)
    ∧ ((poolStatsOf s0.sizeMultiplier vols0 sv0).netapp_mirrored = "true"
        ↔ sv0 ∈ vols0.mirrored)
    ∧ ((poolStatsOf s0.sizeMultiplier vols0 sv0).netapp_unmirrored = "true"
        ↔ ¬ (poolStatsOf s0.sizeMultiplier vols0
              sv0).netapp_mirrored = "true")
    ∧ ((poolStatsOf s0.sizeMultiplier vols0 sv0).netapp_dedup = "true"
        ↔ sv0 ∈ vols0.dedup)
    ∧ ((poolStatsOf s0.sizeMultiplier vols0 sv0).netapp_nodedup = "true"
        ↔ ¬ (poolStatsOf s0.sizeMultiplier vols0 sv0).netapp_dedup = "true")
    ∧ ((poolStatsOf s0.sizeMultiplier vols0 sv0).netapp_compression = "true"
        ↔ sv0 ∈ vols0.compression)
    ∧ ((poolStatsOf s0.sizeMultiplier vols0 sv0).netapp_nocompression
          = "true"
        ↔ ¬ (poolStatsOf s0.sizeMultiplier vols0
              sv0).netapp_compression = "true")
    ∧ ((poolStatsOf s0.sizeMultiplier vols0 sv0).netapp_thin_provisioned
          = "true" ↔ sv0 ∈ vols0.thin)
    ∧ ((poolStatsOf s0.sizeMultiplier vols0 sv0).netapp_thick_provisioned
          = "true"
        ↔ ¬ (poolStatsOf s0.sizeMultiplier vols0
              sv0).netapp_thin_provisioned = "true") := by
  exact pool_stats_tags s0 vols0 sv0 rfl

/-- Truncating to two decimals never increases the value. -/
theorem round_down_le (q : ℚ) : round_down q ≤ q := by
  unfold round_down
  rw [div_le_iff₀ (by norm_num : (0 : ℚ) < 100)]
  exact Int.floor_le (q * 100)

/-- C4: every pool entry's capacities are the raw byte counts divided by the
configured multiplier and by `2^30`, truncated (never rounded up) to two
decimal places — the truncation never exceeds the exact quotient and always
lands on a hundredth; `size_total_bytes = 1073741824 * 10` with multiplier
`1.0` reports exactly `10.00`, and an exact quotient of `10.005` GiB reports
`10.00`, not `10.01`. -/
theorem pool_stats_capacity (m : ℚ) (vols : SSCVols) (vol : SSCVol) :
    ((poolStatsOf m vols vol).total_capacity_gb
        = round_down (vol.sizeTotalBytes / m / Gi)
      ∧ (poolStatsOf m vols vol).free_capacity_gb
          = round_down (vol.sizeAvlBytes / m / Gi))
    ∧ ((poolStatsOf m vols vol).total_capacity_gb
          ≤ vol.sizeTotalBytes / m / Gi
      ∧ ∃ n : ℤ, (poolStatsOf m vols vol).total_capacity_gb = (n : ℚ) / 100)
    ∧ (poolStatsOf 1 vols
        { vol with sizeTotalBytes := 1073741824 * 10 }).total_capacity_gb
        = 10
    ∧ (poolStatsOf 1000 vols
        { vol with sizeTotalBytes := 10005 * 1073741824 }).total_capacity_gb
        = 10
    ∧ round_down (10005 / 1000 : ℚ) ≠ 10.01 := by
  refine ⟨⟨rfl, rfl⟩, ⟨round_down_le _, ⟨⌊vol.sizeTotalBytes / m / Gi * 100⌋,
    rfl⟩⟩, ?_, ?_, ?_⟩
  · show round_down ((1073741824 * 10 : ℚ) / 1 / Gi) = 10
    unfold round_down Gi
    have h : ((1073741824 * 10 : ℚ) / 1 / 1073741824) * 100 = (1000 : ℚ) := by
      norm_num
    rw [h]
    have h2 : ⌊(1000 : ℚ)⌋ = 1000 := by
      rw [Int.floor_eq_iff]
      norm_num
    rw [h2]
    norm_num
  · show round_down ((10005 * 1073741824 : ℚ) / 1000 / Gi) = 10
    unfold round_down Gi
    have h : ((10005 * 1073741824 : ℚ) / 1000 / 1073741824) * 100
        = (2001 / 2 : ℚ) := by norm_num
    rw [h]
    have h2 : ⌊(2001 / 2 : ℚ)⌋ = 1000 := by
      rw [Int.floor_eq_iff]
      norm_num
    rw [h2]
    norm_num
  · unfold round_down
    have h : ((10005 : ℚ) / 1000) * 100 = (2001 / 2 : ℚ) := by norm_num
    rw [h]
    have h2 : ⌊(2001 / 2 : ℚ)⌋ = 1000 := by
      rw [Int.floor_eq_iff]
      norm_num
    rw [h2]
    norm_num

/-- C6 counterexample: a LUN that is tracked in the table but whose recorded
owning-pool name is the empty string.  `delete_volume` runs the Python
truthiness check `if netapp_vol:` on the recorded name, so the (empty-named)
owning pool is NOT marked: the claim's "tracked implies its recorded pool is
marked" fails at this input. -/
theorem delete_volume_counterexample :
    tableGet sE.lun_table "LE" = some lunE
    ∧ lunE.metadata.volume = ""
    ∧ (⟨"", "vs1"⟩ : NetAppVolume)
        ∉ (delete_volume sE (fun t => t) "LE").stale_vols
    ∧ (delete_volume sE (fun t => t) "LE").stale_vols = ∅ := by
  refine ⟨rfl, rfl, ?_, rfl⟩
  show (⟨"", "vs1"⟩ : NetAppVolume) ∉ (∅ : Finset NetAppVolume)
  exact Finset.not_mem_empty _

/-- C6 (amended): the recorded owning pool of a tracked LUN is marked stale
after the base deletion when its name is non-empty (truthy); when the name
is empty, or when the LUN is untracked, the call completes with the base
deletion's result and adds nothing to the invalidation set. -/
theorem delete_volume_spec (s : DriverState)
    (baseDelete : DriverState → DriverState) (nm : String)
    (hstale : (baseDelete s).stale_vols = s.stale_vols)
    (hvs : (baseDelete s).vserver = s.vserver) :
    (∀ lun, tableGet s.lun_table nm = some lun → lun.metadata.volume ≠ "" →
      (delete_volume s baseDelete nm).stale_vols
        = insert ⟨lun.metadata.volume, s.vserver⟩ s.stale_vols)
    ∧ (∀ lun, tableGet s.lun_table nm = some lun →
        lun.metadata.volume = "" →
          delete_volume s baseDelete nm = baseDelete s)
    ∧ (tableGet s.lun_table nm = none →
        delete_volume s baseDelete nm = baseDelete s) := by
  refine ⟨?_, ?_, ?_⟩
  · intro lun hlun hne
    simp [delete_volume, hlun, hne, update_stale_vols, hstale, hvs]
  · intro lun hlun he
    simp [delete_volume, hlun, he]
  · intro hnone
    simp [delete_volume, hnone]

/-- Witness: `delete_volume_spec` with the identity base deletion, applied at
a tracked LUN with a non-empty recorded pool and at an untracked name. -/
theorem delete_volume_spec_witness :
    (delete_volume s0 (fun t => t) "L1").stale_vols
      = insert ⟨"P1", "vs1"⟩ s0.stale_vols
    ∧ delete_volume s0 (fun t => t) "ZZ" = s0 := by
  have h := delete_volume_spec s0 (fun t => t) "L1" rfl rfl
  have h2 := delete_volume_spec s0 (fun t => t) "ZZ" rfl rfl
  exact ⟨h.1 lun0 (by decide) (by decide), h2.2.2 (by decide)⟩

end NetAppCmode
